import Mathlib

/-!
Verification of the review-dashboard core in src/app.py against its
natural-language specification.

The dataset rows of master_mixed_dataset.csv are modelled as a Lean
structure; numeric columns become rationals.  The pandas operations the
app performs (boolean-mask filtering, case-insensitive regex containment
via Series.str.contains, positional row access via iloc) are embedded as
list operations, with iloc on a possibly-empty frame modelled as an
Option whose none is the IndexError fault.
-/

namespace AmazonReviews

/-- One row of master_mixed_dataset.csv, with the columns src/app.py reads:
name, category, price, rating, quality_score, durability_score,
value_score, design_score, positive, neutral, negative. -/
structure Row where
  name : String
  category : String
  price : ℚ
  rating : ℚ
  quality_score : ℚ
  durability_score : ℚ
  value_score : ℚ
  design_score : ℚ
  positive : ℚ
  neutral : ℚ
  negative : ℚ
deriving DecidableEq, Repr

/-!
Embedding of the regex fragment used by pandas Series.str.contains
(which compiles its pattern with re, regex=True by default; app.py calls
it with case=False, i.e. re.IGNORECASE, and na=False).  We model the
fragment without quantifiers, groups, classes or escapes: a pattern
element is a literal character or the metacharacter dot (which matches
any character except a newline).  Patterns using the unsupported
constructs are rejected by the parser (none), so every theorem below
quantifies only over patterns the model covers.
-/

/-- A compiled regex element: a literal character or the dot wildcard. -/
inductive RElem where
  | lit (c : Char)
  | dot
deriving DecidableEq, Repr

/-- Whether one regex element matches one character, under re.IGNORECASE
(literals compare lower-cased; dot matches anything but a newline). -/
def elemMatch : RElem → Char → Bool
  | RElem.lit c, d => c.toLower == d.toLower
  | RElem.dot, d => d != '\n'

/-- Match the whole pattern against a prefix of the text. -/
def matchHere : List RElem → List Char → Bool
  | [], _ => true
  | _ :: _, [] => false
  | e :: es, c :: cs => elemMatch e c && matchHere es cs

/-- re.search semantics: the pattern matches starting at some position. -/
def reSearch (p : List RElem) : List Char → Bool
  | [] => matchHere p []
  | c :: cs => matchHere p (c :: cs) || reSearch p cs

/-- Regex metacharacters (other than the dot) that the fragment does not
model; a pattern containing one is rejected. -/
def metaChars : List Char :=
  ['*', '+', '?', '(', ')', '[', ']', '\x7b', '\x7d', '|', '^', '$', '\\']

/-- Compile a pattern string of the modelled fragment: dot becomes the
wildcard, any other non-metacharacter is a literal. -/
def parseRE : List Char → Option (List RElem)
  | [] => some []
  | c :: cs =>
    if c = '.' then (parseRE cs).map (fun es => RElem.dot :: es)
    else if c ∈ metaChars then none
    else (parseRE cs).map (fun es => RElem.lit c :: es)

/-!
Literal case-insensitive substring containment, written from the words of
the specification (substring containment, not tokenized or fuzzy), to be
compared with the regex behaviour of the code.
-/

/-- The needle is a prefix of the hay (character lists, exact). -/
def prefAt : List Char → List Char → Bool
  | [], _ => true
  | _ :: _, [] => false
  | n :: ns, h :: hs => n == h && prefAt ns hs

/-- The needle occurs contiguously somewhere in the hay (character lists,
exact). -/
def containsL (needle : List Char) : List Char → Bool
  | [] => prefAt needle []
  | h :: hs => prefAt needle (h :: hs) || containsL needle hs

/-- Modelled from the spec: case-insensitive literal substring containment
of the query in the title, 4.3 ProductFilter (the query filter the
specification describes). -/
def strContainsCI (hay needle : String) : Bool :=
  containsL (needle.toList.map Char.toLower) (hay.toList.map Char.toLower)

/-!
The filtering pipeline of src/app.py.
-/

/-- Line 163: cat_df = df[df["category"] == category] (exact equality of
the category column with the selected value). -/
def catFilter (df : List Row) (category : String) : List Row :=
  df.filter (fun r => r.category == category)

/-- Line 169: filtered = cat_df[cat_df["name"].str.contains(search,
case=False, na=False)] if search else cat_df.  A pattern outside the
modelled regex fragment gives none (re would also raise on an invalid
pattern). -/
def searchFilter (df : List Row) (search : String) : Option (List Row) :=
  if search = "" then some df
  else (parseRE search.toList).map
    (fun p => df.filter (fun r => reSearch p r.name.toList))

/-- The candidate subset after both filters: category filter then search
filter, as the code applies them. -/
def candidates (df : List Row) (category search : String) : Option (List Row) :=
  searchFilter (catFilter df category) search

/-- The row-level search predicate the code evaluates on each name when a
search is given (true when no search is given). -/
def matchesSearch (search : String) (r : Row) : Bool :=
  if search = "" then true
  else
    match parseRE search.toList with
    | some p => reSearch p r.name.toList
    | none => false

/-- Outcome of one dashboard run: an uncaught pandas fault (IndexError on
iloc, or re.error), the no-products warning that stops the page, or the
product the page displays. -/
inductive Outcome where
  | fault
  | noResults
  | shows (r : Row)
deriving DecidableEq, Repr

/-- Lines 154-176 of src/app.py for one (dataset, category, search)
interaction: filter by category; build the search placeholder with
cat_df.iloc[0] (IndexError when the category has no rows); filter by the
search text; on a non-empty search with no matches, warn and stop;
otherwise display filtered.iloc[0]. -/
def appRun (df : List Row) (category search : String) : Outcome :=
  match (catFilter df category).head? with
  | none => Outcome.fault
  | some _ =>
    match searchFilter (catFilter df category) search with
    | none => Outcome.fault
    | some filtered =>
      if search ≠ "" ∧ filtered = [] then Outcome.noResults
      else
        match filtered.head? with
        | none => Outcome.fault
        | some r => Outcome.shows r

/-!
The final-verdict card and price-trend chart of src/app.py.
-/

/-- Round to the nearest integer, halves to the even neighbour, as Python
round does on an exactly-representable value. -/
def roundHalfEven (x : ℚ) : ℤ :=
  let f := Int.floor x
  if x - f < 1 / 2 then f
  else if 1 / 2 < x - f then f + 1
  else if f % 2 = 0 then f else f + 1

/-- Python round(x, 1): round 10 x to an integer (halves to even) and
divide by 10. -/
def pyRound1 (x : ℚ) : ℚ := (roundHalfEven (10 * x) : ℚ) / 10

/-- Lines 297-302: final_score = round((quality_score + value_score +
durability_score + design_score) / 4, 1). -/
def final_score (p : Row) : ℚ :=
  pyRound1 ((p.quality_score + p.value_score + p.durability_score + p.design_score) / 4)

/-- Lines 304-312: the markdown of the final-verdict card, with the score
and the positive percentage interpolated; the recommendation sentence is
unconditional. -/
def verdictHtml (p : Row) : String :=
  "\n<div class=\"summary-card\" style=\"background:white; color:black; text-align:center;\">\n    <h2>🏆 Final Verdict: "
    ++ toString (final_score p)
    ++ "/10</h2>\n    <p style=\"font-size:16px;\">\n        Based on <b>"
    ++ toString p.positive
    ++ "%</b> positive sentiment and strong feature ratings,\n        this product is <b>recommended</b> for most buyers.\n    </p>\n</div>\n"

/-- Lines 242-245: the y-values of the price-trend chart, in plot order
(4 months ago, 3 months ago, 2 months ago, now). -/
def trendY (p : Row) : List ℚ :=
  [p.price * (11 / 10), p.price * (21 / 20), p.price * (103 / 100), p.price]

/-!
Components of the specification whose code is not in src/ (src/app.py is
one presentation variant that reads precomputed sentiment columns and has
no classifier, aggregator or verdict thresholds); they are modelled from
the words of the specification.
-/

/-- A sentiment label of the specification. -/
inductive SentLabel where
  | positive
  | neutral
  | negative
deriving DecidableEq, Repr

/-- Modelled from the spec: the SentimentClassifier (absent from
src/app.py), the three-way threshold chain of 3 and 4.1: rating at least
4 gives Positive, a rating equal to 3 gives Neutral, anything else
Negative, with no clamping. -/
def classify (r : ℚ) : SentLabel :=
  if 4 ≤ r then SentLabel.positive
  else if r = 3 then SentLabel.neutral
  else SentLabel.negative

/-- Modelled from the spec: the SentimentScore mapping of 3 (Positive
to 1, Neutral to 0, Negative to -1). -/
def sentScore (r : ℚ) : ℤ :=
  match classify r with
  | SentLabel.positive => 1
  | SentLabel.neutral => 0
  | SentLabel.negative => -1

/-- A verdict of the specification. -/
inductive Verdict where
  | strongBuy
  | mixed
  | avoid
deriving DecidableEq, Repr

/-- Modelled from the spec: the VerdictClassifier (absent from
src/app.py), 4.5: average rating at least 4 gives StrongBuy, at most 2.5
gives Avoid, otherwise Mixed. -/
def verdict (r : ℚ) : Verdict :=
  if 4 ≤ r then Verdict.strongBuy
  else if r ≤ 5 / 2 then Verdict.avoid
  else Verdict.mixed

/-- Modelled from the spec: a Review input record of 3 (the raw review
table is not read by src/app.py, whose CSV is already aggregated). -/
structure Review where
  product_title : String
  category : String
  rating : ℚ
  review_text : String
deriving DecidableEq, Repr

/-- Modelled from the spec: a ProductSummary record of 3. -/
structure ProductSummary where
  product_title : String
  category : String
  average_rating : ℚ
  review_count : ℕ
  average_sentiment : ℚ
deriving DecidableEq, Repr

/-- The grouping key of the aggregator: (product_title, category). -/
def keyOf (r : Review) : String × String := (r.product_title, r.category)

/-- Modelled from the spec: the ProductAggregator (absent from
src/app.py), 4.2: group reviews by (product_title, category); per group
the average rating, the group size and the average sentiment score.
Groups appear in order of first encounter. -/
def aggregate (reviews : List Review) : List ProductSummary :=
  ((reviews.map keyOf).dedup).map (fun k =>
    let grp := reviews.filter (fun r => keyOf r == k)
    ⟨k.1, k.2, (grp.map Review.rating).sum / grp.length, grp.length,
      (grp.map (fun r => (sentScore r.rating : ℚ))).sum / grp.length⟩)

/-!
Concrete example rows for witnesses and counterexamples.
-/

/-- A Phones row with the lowest rating, first in the example dataset. -/
def rowA : Row := ⟨"Alpha", "Phones", 100, 1, 8, 7, 9, 6, 70, 20, 10⟩

/-- A Phones row with the highest rating, second in the example dataset. -/
def rowB : Row := ⟨"Beta", "Phones", 200, 5, 8, 7, 9, 6, 70, 20, 10⟩

/-- A Books row. -/
def rowG : Row := ⟨"Gamma", "Books", 50, 4, 8, 7, 9, 6, 70, 20, 10⟩

/-- A row whose name is abc, for the regex-vs-literal comparison. -/
def rowDot : Row := ⟨"abc", "Phones", 30, 3, 8, 7, 9, 6, 70, 20, 10⟩

/-- A row whose price is zero. -/
def rowZero : Row := ⟨"Zero", "Phones", 0, 3, 5, 5, 5, 5, 50, 30, 20⟩

/-- An example dataset of three rows. -/
def dfEx : List Row := [rowA, rowB, rowG]

/-!
Helper lemmas.
-/

theorem head?_filter_find {α : Type _} (p : α → Bool) :
    ∀ l : List α, (l.filter p).head? = l.find? p
  | [] => rfl
  | a :: l => by
    by_cases h : p a
    · simp [List.filter_cons, h]
    · simp [List.filter_cons, h, head?_filter_find p l]

theorem matchesSearch_empty (r : Row) : matchesSearch "" r = true := rfl

theorem candidates_eq_filter {df : List Row} {c s : String} {l : List Row}
    (h : candidates df c s = some l) :
    l = df.filter (fun x => x.category == c && matchesSearch s x) := by
  by_cases hs : s = ""
  · subst hs
    have h' : some (catFilter df c) = some l := h
    obtain rfl := Option.some.inj h'
    unfold catFilter
    apply List.filter_congr
    intro x _
    simp [matchesSearch]
  · unfold candidates searchFilter at h
    rw [if_neg hs] at h
    cases hp : parseRE s.toList with
    | none => rw [hp] at h; simp at h
    | some p =>
      rw [hp] at h
      simp only [Option.map] at h
      obtain rfl := Option.some.inj h.symm
      unfold catFilter
      rw [List.filter_filter]
      apply List.filter_congr
      intro x _
      show (reSearch p x.name.toList && (x.category == c)) = (x.category == c && matchesSearch s x)
      rw [Bool.and_comm]
      congr 1
      unfold matchesSearch
      rw [if_neg hs, hp]

theorem appRun_shows {df : List Row} {c s : String} {r : Row}
    (h : appRun df c s = Outcome.shows r) :
    ∃ l, candidates df c s = some l ∧ l.head? = some r := by
  unfold appRun at h
  cases hh : (catFilter df c).head? with
  | none => simp only [hh] at h; exact Outcome.noConfusion h
  | some a =>
    simp only [hh] at h
    cases hf : searchFilter (catFilter df c) s with
    | none => simp only [hf] at h; exact Outcome.noConfusion h
    | some filtered =>
      simp only [hf] at h
      refine ⟨filtered, hf, ?_⟩
      by_cases hc : s ≠ "" ∧ filtered = []
      · rw [if_pos hc] at h; exact Outcome.noConfusion h
      · rw [if_neg hc] at h
        cases hfh : filtered.head? with
        | none => simp only [hfh] at h; exact Outcome.noConfusion h
        | some b =>
          simp only [hfh, Outcome.shows.injEq] at h
          rw [h]

theorem parse_lit :
    ∀ l : List Char, (∀ c ∈ l, c ≠ '.' ∧ c ∉ metaChars) →
      parseRE l = some (l.map RElem.lit)
  | [], _ => rfl
  | c :: cs, h => by
    have hc := h c (List.mem_cons_self c cs)
    have ih := parse_lit cs (fun d hd => h d (List.mem_cons_of_mem c hd))
    simp [parseRE, hc.1, hc.2, ih]

theorem matchHere_lit :
    ∀ q s : List Char,
      matchHere (q.map RElem.lit) s = prefAt (q.map Char.toLower) (s.map Char.toLower)
  | [], s => by cases s <;> rfl
  | _ :: _, [] => rfl
  | c :: q, d :: s => by
    simp [matchHere, prefAt, elemMatch, matchHere_lit q s]

theorem reSearch_lit :
    ∀ q s : List Char,
      reSearch (q.map RElem.lit) s = containsL (q.map Char.toLower) (s.map Char.toLower)
  | q, [] => by simpa [reSearch, containsL] using matchHere_lit q []
  | q, c :: s => by
    simp [reSearch, containsL, matchHere_lit q (c :: s), reSearch_lit q s]

theorem containsL_nil_needle : ∀ l : List Char, containsL [] l = true
  | [] => rfl
  | _ :: _ => by simp [containsL, prefAt]

theorem containsL_append_right (n : List Char) {l₂ : List Char}
    (h : containsL n l₂ = true) : ∀ l₁ : List Char, containsL n (l₁ ++ l₂) = true
  | [] => by simpa using h
  | c :: l₁ => by
    show containsL n (c :: (l₁ ++ l₂)) = true
    simp [containsL, containsL_append_right n h l₁]

theorem toList_app (x y : String) : (x ++ y).toList = x.toList ++ y.toList :=
  String.data_append x y

/-!
Claim theorems.
-/

/-- Claim C1 (amended): for every dataset, category and search whose run
displays a product, the displayed product is the first row of the input
sequence satisfying both the category filter and the search predicate —
the first candidate in input order, regardless of average rating. -/
theorem C1_selection_is_first_match (df : List Row) (c s : String) (r : Row)
    (h : appRun df c s = Outcome.shows r) :
    df.find? (fun x => x.category == c && matchesSearch s x) = some r := by
  obtain ⟨l, hl, hh⟩ := appRun_shows h
  have he := candidates_eq_filter hl
  rw [← head?_filter_find, ← he]
  exact hh

/-- Claim C1 witness: on the example dataset the run over Phones with no
search displays rowA, the first matching row. -/
theorem C1_witness :
    appRun dfEx "Phones" "" = Outcome.shows rowA ∧
    dfEx.find? (fun x => x.category == "Phones" && matchesSearch "" x) = some rowA :=
  ⟨by decide, C1_selection_is_first_match dfEx "Phones" "" rowA (by decide)⟩

/-- Claim C1 counterexample: rowB is a candidate with a strictly higher
rating than rowA, yet the run displays rowA — the selection is not the
maximum of average_rating over the candidate subset. -/
theorem C1_counterexample :
    appRun dfEx "Phones" "" = Outcome.shows rowA ∧
    rowB ∈ catFilter dfEx "Phones" ∧ matchesSearch "" rowB = true ∧
    rowA.rating < rowB.rating ∧ rowA ≠ rowB := by decide

/-- Claim C2: selecting a category with zero products makes the run fault
(the IndexError of cat_df.iloc[0] on line 168 while building the search
placeholder), instead of the explicit empty-result outcome the claim and
the specification require. -/
theorem C2_zero_category_fault :
    appRun [rowG] "Phones" "" = Outcome.fault := by decide

/-- Claim C3 (amended): the category filter keeps exactly the rows whose
category field is string-equal to the selected value, preserving order;
there is no All sentinel — every value, All included, is matched by exact
equality. -/
theorem C3_exact_match_all_values (df : List Row) (c : String) :
    (∀ r : Row, r ∈ catFilter df c ↔ r ∈ df ∧ r.category = c) ∧
    (catFilter df c).Sublist df := by
  constructor
  · intro r
    simp [catFilter, List.mem_filter]
  · exact List.filter_sublist df

/-- Claim C3 counterexample: filtering with the value All does not
disable filtering — it matches the category All exactly, returning the
empty list on a dataset with one Books row. -/
theorem C3_counterexample :
    catFilter [rowG] "All" = [] ∧ ([rowG] : List Row) ≠ [] := by decide

/-- Claim C4 (amended): an empty search applies no text filtering, and a
search without regex metacharacters keeps exactly the rows whose name
contains the search as a case-insensitive literal substring; searches are
interpreted as regular expressions (pandas str.contains with its default
regex=True), so metacharacter queries are not literal containment. -/
theorem C4_literal_query_filter (df : List Row) (s : String) :
    (s = "" → searchFilter df s = some df) ∧
    ((∀ c ∈ s.toList, c ≠ '.' ∧ c ∉ metaChars) →
      searchFilter df s = some (df.filter (fun r => strContainsCI r.name s))) := by
  constructor
  · intro hs; subst hs; rfl
  · intro hlit
    by_cases hs : s = ""
    · subst hs
      have hpt : ∀ x ∈ df, (strContainsCI x.name "") = true := by
        intro x _
        simp [strContainsCI]
        exact containsL_nil_needle _
      have : df.filter (fun r => strContainsCI r.name "") = df :=
        (List.filter_congr hpt).trans (List.filter_true df)
      rw [searchFilter, if_pos rfl, this]
    · rw [searchFilter, if_neg hs, parse_lit s.toList hlit]
      simp only [Option.map]
      congr 1
      apply List.filter_congr
      intro x _
      rw [reSearch_lit]
      rfl

/-- Claim C4 witness: the metacharacter-free search AB keeps the row
named abc (case-insensitive literal containment). -/
theorem C4_witness :
    searchFilter [rowDot] "AB" = some [rowDot] ∧ strContainsCI "abc" "AB" = true := by
  have h := (C4_literal_query_filter [rowDot] "AB").2 (by decide)
  constructor
  · rw [h]; decide
  · decide

/-- Claim C4 counterexample: the search a.c keeps the row named abc even
though abc does not contain a.c as a literal substring — the dot is a
regex wildcard, so matching is pattern-based, not plain containment. -/
theorem C4_counterexample :
    searchFilter [rowDot] "a.c" = some [rowDot] ∧
    strContainsCI rowDot.name "a.c" = false := by decide

/-- Claim C5: whenever the two filters succeed, the candidate subset is
exactly the rows satisfying both the category condition and the search
condition (logical AND), and it is a sublist of the input — the relative
input order is preserved (stable filter, no re-sort). -/
theorem C5_and_filter_stable (df : List Row) (c s : String) (l : List Row)
    (h : candidates df c s = some l) :
    l = df.filter (fun x => x.category == c && matchesSearch s x) ∧ l.Sublist df := by
  have he := candidates_eq_filter h
  exact ⟨he, he ▸ List.filter_sublist df⟩

/-- Claim C5 witness: on the example dataset, filtering by Phones with no
search yields exactly the two Phones rows, in input order. -/
theorem C5_witness :
    ([rowA, rowB] : List Row) =
      dfEx.filter (fun x => x.category == "Phones" && matchesSearch "" x) ∧
    List.Sublist [rowA, rowB] dfEx :=
  C5_and_filter_stable dfEx "Phones" "" [rowA, rowB] (by decide)

/-- Claim C6: the verdict classifier returns StrongBuy exactly on ratings
at least 4, Avoid exactly on ratings at most 2.5, Mixed exactly on the
open interval between, and in particular at 4, 2.5 and 3.2. -/
theorem C6_verdict_thresholds :
    (∀ r : ℚ, (verdict r = Verdict.strongBuy ↔ 4 ≤ r) ∧
      (verdict r = Verdict.avoid ↔ r ≤ 5 / 2) ∧
      (verdict r = Verdict.mixed ↔ 5 / 2 < r ∧ r < 4)) ∧
    verdict 4 = Verdict.strongBuy ∧ verdict (5 / 2) = Verdict.avoid ∧
    verdict (16 / 5) = Verdict.mixed := by
  refine ⟨fun r => ?_, by norm_num [verdict], by norm_num [verdict], by norm_num [verdict]⟩
  unfold verdict
  split_ifs with h1 h2
  · refine ⟨⟨fun _ => h1, fun _ => rfl⟩, ⟨fun hh => ?_, fun hle => ?_⟩,
      ⟨fun hh => ?_, fun hm => ?_⟩⟩
    · simp at hh
    · exfalso; linarith
    · simp at hh
    · exfalso; rcases hm with ⟨-, h4⟩; linarith
  · refine ⟨⟨fun hh => ?_, fun hge => ?_⟩, ⟨fun _ => h2, fun _ => rfl⟩,
      ⟨fun hh => ?_, fun hm => ?_⟩⟩
    · simp at hh
    · exact absurd hge h1
    · simp at hh
    · exfalso; rcases hm with ⟨h3, -⟩; linarith
  · push_neg at h1 h2
    refine ⟨⟨fun hh => ?_, fun hge => ?_⟩, ⟨fun hh => ?_, fun hle => ?_⟩,
      ⟨fun _ => ⟨h2, h1⟩, fun _ => rfl⟩⟩
    · simp at hh
    · exfalso; linarith
    · simp at hh
    · exfalso; linarith

/-- Claim C7 (amended): classification is a total deterministic function
of the rating alone, with no clamping: Positive exactly on ratings at
least 4, Neutral exactly at 3, and Negative otherwise — that is, below 3
or strictly between 3 and 4 (the else branch of the threshold chain). -/
theorem C7_classify_characterization :
    ∀ r : ℚ, (classify r = SentLabel.positive ↔ 4 ≤ r) ∧
      (classify r = SentLabel.neutral ↔ r = 3) ∧
      (classify r = SentLabel.negative ↔ r < 3 ∨ (3 < r ∧ r < 4)) := by
  intro r
  unfold classify
  split_ifs with h1 h2
  · refine ⟨⟨fun _ => h1, fun _ => rfl⟩, ⟨fun hh => ?_, fun he => ?_⟩,
      ⟨fun hh => ?_, fun hm => ?_⟩⟩
    · simp at hh
    · exfalso; rw [he] at h1; norm_num at h1
    · simp at hh
    · exfalso; rcases hm with h | ⟨-, h4⟩ <;> linarith
  · refine ⟨⟨fun hh => ?_, fun hge => ?_⟩, ⟨fun _ => h2, fun _ => rfl⟩,
      ⟨fun hh => ?_, fun hm => ?_⟩⟩
    · simp at hh
    · exact absurd hge h1
    · simp at hh
    · exfalso; subst h2; rcases hm with h | ⟨h3, -⟩ <;> linarith
  · push_neg at h1
    refine ⟨⟨fun hh => ?_, fun hge => ?_⟩, ⟨fun hh => ?_, fun he => ?_⟩,
      ⟨fun _ => ?_, fun _ => rfl⟩⟩
    · simp at hh
    · exfalso; linarith
    · simp at hh
    · exact absurd he h2
    · rcases lt_trichotomy r 3 with h | h | h
      · exact Or.inl h
      · exact absurd h h2
      · exact Or.inr ⟨h, h1⟩

/-- Claim C7 counterexample: a rating of 3.5 classifies as Negative yet
is not below 3, refuting Negative-iff-below-3 as stated. -/
theorem C7_counterexample :
    classify (7 / 2 : ℚ) = SentLabel.negative ∧ ¬((7 / 2 : ℚ) < 3) := by
  constructor
  · norm_num [classify]
  · norm_num

/-- The review_count column of the aggregate is the multiset of key
multiplicities of the input. -/
theorem aggregate_counts (reviews : List Review) :
    (aggregate reviews).map ProductSummary.review_count
      = (reviews.map keyOf).dedup.map
          (fun k => (reviews.map keyOf).countP (fun x => x == k)) := by
  unfold aggregate
  rw [List.map_map]
  apply List.map_congr_left
  intro k _
  show (reviews.filter (fun r => keyOf r == k)).length
      = (reviews.map keyOf).countP (fun x => x == k)
  rw [List.countP_map, List.countP_eq_length_filter]
  rfl

/-- Claim C8: aggregation by (product_title, category) partitions the
input — the review_count values of the summaries sum to the number of
input reviews — and aggregating the empty sequence yields the empty
sequence. -/
theorem C8_review_count_partition (reviews : List Review) :
    ((aggregate reviews).map ProductSummary.review_count).sum = reviews.length ∧
    aggregate ([] : List Review) = [] := by
  constructor
  · have hs := List.sum_map_count_dedup_eq_length (reviews.map keyOf)
    rw [List.length_map] at hs
    rw [aggregate_counts]
    refine Eq.trans ?_ hs
    refine congrArg List.sum (List.map_congr_left ?_)
    intro k _
    refine List.countP_congr ?_
    intro x _
    constructor
    · intro hx
      have hx' : x = k := by simpa using hx
      exact decide_eq_true hx'
    · intro hx
      have hx' : x = k := of_decide_eq_true hx
      simp [hx']
  · rfl

/-- Claim C9: the displayed final score is the mean of the four feature
scores rounded to one decimal place, and for every row the verdict card
declares the product recommended — the word appears in the card
unconditionally, whatever the score, rating or sentiment values. -/
theorem C9_final_verdict_unconditional (p : Row) :
    final_score p =
      pyRound1 ((p.quality_score + p.value_score + p.durability_score + p.design_score) / 4) ∧
    containsL "recommended".toList (verdictHtml p).toList = true := by
  refine ⟨rfl, ?_⟩
  unfold verdictHtml
  rw [toList_app]
  exact containsL_append_right _ (by decide) _

/-- Claim C10 (amended): the plotted price-trend values are exactly
price times 1.10, 1.05, 1.03 and the price itself, in that order, a pure
function of the current price; the series is strictly decreasing whenever
the price is positive. -/
theorem C10_price_trend (p : Row) (hp : 0 < p.price) :
    trendY p = [p.price * (11 / 10), p.price * (21 / 20), p.price * (103 / 100), p.price] ∧
    List.Chain' (fun a b : ℚ => b < a) (trendY p) ∧
    ∀ q : Row, q.price = p.price → trendY q = trendY p := by
  refine ⟨rfl, ?_, ?_⟩
  · simp only [trendY, List.chain'_cons, List.chain'_singleton, and_true]
    refine ⟨by nlinarith, by nlinarith, by nlinarith⟩
  · intro q hq
    simp [trendY, hq]

/-- Claim C10 witness: the trend of rowA (price 100) is the concrete
strictly decreasing series 110, 105, 103, 100. -/
theorem C10_witness :
    trendY rowA =
      [rowA.price * (11 / 10), rowA.price * (21 / 20), rowA.price * (103 / 100), rowA.price] ∧
    List.Chain' (fun a b : ℚ => b < a) (trendY rowA) ∧
    trendY rowA = trendY rowA :=
  ⟨(C10_price_trend rowA (by decide)).1, (C10_price_trend rowA (by decide)).2.1,
    (C10_price_trend rowA (by decide)).2.2 rowA rfl⟩

/-- Claim C10 counterexample: a row with price zero plots the constant
series 0, 0, 0, 0, which is not strictly decreasing. -/
theorem C10_counterexample :
    trendY rowZero = [0, 0, 0, 0] ∧
    ¬List.Chain' (fun a b : ℚ => b < a) (trendY rowZero) := by
  constructor
  · norm_num [trendY, rowZero]
  · simp [trendY, rowZero, List.chain'_cons]

end AmazonReviews
